import Mathlib

/-!
Verification of `src/practice5/main.cpp` (graphics course practice 5).

The program is a single linear SDL/OpenGL demo.  We shallow-embed the parts
of `main` that the specification's testable properties talk about:

* the per-iteration animation clock update (main.cpp:283–295),
* the procedural checkerboard generation (main.cpp:210–223) and the manual
  mipmap overwrites (main.cpp:226–233),
* the uniform-location lookups and per-frame sampler uniform writes
  (main.cpp:184–185, 326–327),
* the per-frame projection matrix (main.cpp:300–321),
* the event-processing switch (main.cpp:258–278),
* the top-level try/catch process boundary (main.cpp:138, 351–355).

C++ `float` time and matrix arithmetic is modelled with exact rationals `ℚ`:
every property below depends only on comparisons whose margins are many
orders of magnitude above `float` rounding error, and on expressions the
code computes literally.  C++ `int` is modelled by `ℤ` (no value here comes
near overflow).
-/

namespace Practice5

/-! ## Animation clock (main.cpp:245–251, 283–295) -/

/-- The animation state of the frame loop: `time` and `prev_time` are the
C++ `float` accumulators (main.cpp:247–248), `curr_frame` the C++ `int`
(main.cpp:250), `curr_frame_changed` the flag (main.cpp:251). -/
structure ClockState where
  time : ℚ
  prev_time : ℚ
  curr_frame : ℤ
  curr_frame_changed : Bool
deriving Repr, DecidableEq

/-- One loop iteration of the clock (main.cpp:286–295): `time += dt`, then
if `time - prev_time >= 0.05` set `prev_time = time`, `curr_frame += 1`,
`curr_frame_changed = true`, and wrap `curr_frame` to 0 when it reaches 15;
otherwise `curr_frame_changed = false`. -/
def clockStep (s : ClockState) (dt : ℚ) : ClockState :=
  let time := s.time + dt
  if time - s.prev_time ≥ 1/20 then
    let cf := s.curr_frame + 1
    { time := time
      prev_time := time
      curr_frame := if cf ≥ 15 then 0 else cf
      curr_frame_changed := true }
  else
    { s with time := time, curr_frame_changed := false }

/-- The initial animation state (main.cpp:247–251): `prev_time = 0`,
`time = 0`, `curr_frame = 0`, `curr_frame_changed = false`. -/
def clockInit : ClockState :=
  { time := 0, prev_time := 0, curr_frame := 0, curr_frame_changed := false }

/-- Running the loop from the initial state over a list of per-iteration
frame delta times `dt`. -/
def clockRun (dts : List ℚ) : ClockState :=
  dts.foldl clockStep clockInit

/-- Modelled from the spec: `test_image.h` (not part of the sources at hand)
declares the embedded table `test_image_data` of 15 raster frames, each
498×498 RGB8.  Only its length matters to the bounds claims. -/
def test_image_frame_count : ℤ := 15

/-! ## Checkerboard generation (main.cpp:210–223) -/

/-- main.cpp:214: `int res = ((x + y) % 2) * 255` for loop indices `x`, `y`. -/
def checker_res (x y : ℕ) : ℕ := ((x + y) % 2) * 255

/-- The four bytes pushed for loop iteration `(x, y)` (main.cpp:215–218):
R = G = B = `res`, A = 255. -/
def checker_texel_bytes (x y : ℕ) : List ℕ :=
  [checker_res x y, checker_res x y, checker_res x y, 255]

/-- main.cpp:210–220: the `color` byte vector — outer loop over
`x ∈ [0, 1024)`, inner loop over `y ∈ [0, 1024)`, pushing one RGBA texel
per iteration.  `glTexImage2D` (main.cpp:223) reads it row-major, so the
texel for texture coordinate `(x, y)` starts at byte `(y*1024 + x)*4`. -/
def color_buffer : List ℕ :=
  (List.range 1024).flatMap fun x =>
    (List.range 1024).flatMap fun y => checker_texel_bytes x y

/-! ## Manual mipmap levels (main.cpp:226–233) -/

/-- How `glTexImage2D` with format `GL_RGBA`/`GL_UNSIGNED_BYTE` reads one
`std::uint32_t` of the mipmap vectors on the little-endian hosts this
program targets: byte 0 (lowest) = R, byte 1 = G, byte 2 = B, byte 3 = A. -/
def rgba_of_word (w : ℕ) : ℕ × ℕ × ℕ × ℕ :=
  (w % 256, w / 256 % 256, w / 65536 % 256, w / 16777216 % 256)

/-- main.cpp:226: `std::vector<std::uint32_t> red_mipmap(512 * 512, 0xff0000ffu)`,
uploaded as mipmap level 1 at 512×512 (main.cpp:227). -/
def red_mipmap : List ℕ := List.replicate (512 * 512) 0xff0000ff

/-- main.cpp:229: `green_mipmap(256 * 256, 0xffff0000u)`, uploaded as
mipmap level 2 at 256×256 (main.cpp:230). -/
def green_mipmap : List ℕ := List.replicate (256 * 256) 0xffff0000

/-- main.cpp:232: `blue_mipmap(128 * 128, 0xff00ff00u)`, uploaded as
mipmap level 3 at 128×128 (main.cpp:233). -/
def blue_mipmap : List ℕ := List.replicate (128 * 128) 0xff00ff00

/-- Modelled from the spec: solid opaque red as an RGBA texel. -/
def solid_red : ℕ × ℕ × ℕ × ℕ := (255, 0, 0, 255)

/-- Modelled from the spec: solid opaque green as an RGBA texel. -/
def solid_green : ℕ × ℕ × ℕ × ℕ := (0, 255, 0, 255)

/-- Modelled from the spec: solid opaque blue as an RGBA texel. -/
def solid_blue : ℕ × ℕ × ℕ × ℕ := (0, 0, 255, 255)

/-! ## Uniform locations and per-frame sampler writes
(main.cpp:182–185, 326–327) -/

/-- main.cpp:182: `glGetUniformLocation(program, "view")`, abstracted over
the lookup function of the linked program. -/
def view_location (loc : String → ℤ) : ℤ := loc "view"

/-- main.cpp:183: `glGetUniformLocation(program, "projection")`. -/
def projection_location (loc : String → ℤ) : ℤ := loc "projection"

/-- main.cpp:184: `glGetUniformLocation(program, "tex")`. -/
def tex_location (loc : String → ℤ) : ℤ := loc "tex"

/-- main.cpp:185: `tex_img_location` is also fetched as
`glGetUniformLocation(program, "tex")` — the string is `"tex"`, not
`"img"`. -/
def tex_img_location (loc : String → ℤ) : ℤ := loc "tex"

/-- The per-frame sampler uniform writes (main.cpp:326–327):
`glUniform1i(tex_location, 0); glUniform1i(tex_img_location, 1);`
as (location, value) pairs in program order. -/
def frame_sampler_writes (loc : String → ℤ) : List (ℤ × ℤ) :=
  [(tex_location loc, 0), (tex_img_location loc, 1)]

/-- Executing a list of `glUniform1i` writes against a uniform store
(location ↦ value), later writes overriding earlier ones. -/
def apply_uniform_writes (st : ℤ → ℤ) (ws : List (ℤ × ℤ)) : ℤ → ℤ :=
  ws.foldl (fun acc w => fun l => if l = w.1 then w.2 else acc l) st

/-- A concrete uniform-location assignment for witnessing: `"tex" ↦ 5`,
every other name ↦ 7. -/
def sampleLoc : String → ℤ := fun s => if s = "tex" then 5 else 7

/-- A concrete initial uniform store for witnessing: every location 0
(the GL default for sampler uniforms). -/
def sampleStore : ℤ → ℤ := fun _ => 0

/-! ## Per-frame projection matrix (main.cpp:300–321) -/

/-- main.cpp:300: `float near = 0.1f` (modelled exactly). -/
def near : ℚ := 1/10

/-- main.cpp:301: `float far = 100.f`. -/
def far : ℚ := 100

/-- main.cpp:302: `float top = near`. -/
def top : ℚ := near

/-- main.cpp:303: `float right = (top * width) / height`. -/
def right (width height : ℚ) : ℚ := top * width / height

/-- main.cpp:315–321: the row-major 4×4 projection matrix, entry (i, j) at
index `i*4 + j`. -/
def projection (width height : ℚ) : List ℚ :=
  [near / right width height, 0, 0, 0,
   0, near / top, 0, 0,
   0, 0, -(far + near) / (far - near), -2 * far * near / (far - near),
   0, 0, -1, 0]

/-! ## Event processing (main.cpp:258–278) -/

/-- The SDL events the switch in the frame loop distinguishes. -/
inductive SDLEvent where
  | quit : SDLEvent
  | windowResized (data1 data2 : ℤ) : SDLEvent
  | keyDown (sym : ℤ) : SDLEvent
  | keyUp (sym : ℤ) : SDLEvent

/-- The per-loop mutable state the event switch touches: stored window
dimensions, the `running` flag, and the `button_down` map. -/
structure AppState where
  width : ℤ
  height : ℤ
  running : Bool
  button_down : ℤ → Bool

/-- The event switch of the frame loop (main.cpp:258–278): SDL_QUIT clears
`running`; SDL_WINDOWEVENT_RESIZED stores `data1`/`data2` as width/height
(and updates the viewport, not modelled); key events update `button_down`. -/
def processEvent (s : AppState) (e : SDLEvent) : AppState :=
  match e with
  | .quit => { s with running := false }
  | .windowResized d1 d2 => { s with width := d1, height := d2 }
  | .keyDown sym =>
      { s with button_down := fun k => if k = sym then true else s.button_down k }
  | .keyUp sym =>
      { s with button_down := fun k => if k = sym then false else s.button_down k }

/-! ## Process boundary (main.cpp:24–32, 68–105, 138–180, 351–355) -/

/-- The outcomes of the external setup calls `main` makes before the loop:
which calls succeed, the driver error strings, and the shader/program info
logs (`some log` means the compile/link failed with that log). -/
structure Env where
  sdl_init_ok : Bool
  sdl_error : String
  create_window_ok : Bool
  create_context_ok : Bool
  glew_ok : Bool
  glew_error : String
  gl33_supported : Bool
  vertex_log : Option String
  fragment_log : Option String
  link_log : Option String

/-- main.cpp:24–27: `sdl2_fail` throws a `runtime_error` whose message is
the given text followed by `SDL_GetError()`. -/
def sdl2_fail (message : String) (sdl_error : String) : Except String Unit :=
  .error (message ++ sdl_error)

/-- main.cpp:29–32: `glew_fail` throws a `runtime_error` whose message is
the given text followed by `glewGetErrorString(error)`. -/
def glew_fail (message : String) (err : String) : Except String Unit :=
  .error (message ++ err)

/-- main.cpp:68–84: `create_shader` throws
`"Shader compilation failed: " + info_log` when compilation fails. -/
def create_shader (log : Option String) : Except String Unit :=
  match log with
  | none => .ok ()
  | some info_log => .error ("Shader compilation failed: " ++ info_log)

/-- main.cpp:86–105: `create_program` throws
`"Program linkage failed: " + info_log` when linking fails. -/
def create_program (log : Option String) : Except String Unit :=
  match log with
  | none => .ok ()
  | some info_log => .error ("Program linkage failed: " ++ info_log)

/-- The fallible part of the body of `main` (main.cpp:140–180): the setup
sequence with its conditional throws, followed by the frame loop, which
raises nothing and terminates normally on a close signal. -/
def main_body (env : Env) : Except String Unit := do
  if ¬ env.sdl_init_ok then sdl2_fail "SDL_Init: " env.sdl_error
  if ¬ env.create_window_ok then sdl2_fail "SDL_CreateWindow: " env.sdl_error
  if ¬ env.create_context_ok then sdl2_fail "SDL_GL_CreateContext: " env.sdl_error
  if ¬ env.glew_ok then glew_fail "glewInit: " env.glew_error
  if ¬ env.gl33_supported then throw "OpenGL 3.3 is not supported"
  create_shader env.vertex_log
  create_shader env.fragment_log
  create_program env.link_log
  pure ()

/-- The process boundary (main.cpp:138 `try`, 351–355 `catch`): falling off
the end of `main` yields exit code 0 and no stderr output; the catch block
writes `e.what()` to stderr and returns `EXIT_FAILURE` (1).  The result is
the pair (exit code, stderr output). -/
def process_result (r : Except String Unit) : ℤ × Option String :=
  match r with
  | .ok _ => (0, none)
  | .error e => (1, some e)

/-- A fully successful environment, for witnessing. -/
def envOk : Env :=
  ⟨true, "", true, true, true, "", true, none, none, none⟩

/-- An environment whose `SDL_Init` fails with driver text `"boom"`, for
witnessing. -/
def envBad : Env :=
  ⟨false, "boom", true, true, true, "", true, none, none, none⟩

lemma clockRun_append (dts : List ℚ) (d : ℚ) :
    clockRun (dts ++ [d]) = clockStep (clockRun dts) d := by
  simp [clockRun, List.foldl_append]

lemma clockStep_frame_bounds (s : ClockState) (dt : ℚ)
    (h0 : 0 ≤ s.curr_frame) (h15 : s.curr_frame < 15) :
    0 ≤ (clockStep s dt).curr_frame ∧ (clockStep s dt).curr_frame < 15 := by
  unfold clockStep
  dsimp only
  split
  · dsimp only
    constructor <;> [skip; skip] <;> split <;> omega
  · exact ⟨h0, h15⟩

lemma clockRun_frame_bounds (dts : List ℚ) :
    0 ≤ (clockRun dts).curr_frame ∧ (clockRun dts).curr_frame < 15 := by
  suffices h : ∀ (s : ClockState), 0 ≤ s.curr_frame → s.curr_frame < 15 →
      0 ≤ (dts.foldl clockStep s).curr_frame ∧ (dts.foldl clockStep s).curr_frame < 15 by
    exact h clockInit (by simp [clockInit]) (by simp [clockInit])
  induction dts with
  | nil => intro s h0 h15; exact ⟨h0, h15⟩
  | cons d rest ih =>
    intro s h0 h15
    have hb := clockStep_frame_bounds s d h0 h15
    exact ih (clockStep s d) hb.1 hb.2

lemma clockRun_tick (k : ℕ) :
    (clockRun (List.replicate k (1/20))).time = k/20 ∧
    (clockRun (List.replicate k (1/20))).prev_time = k/20 ∧
    (clockRun (List.replicate k (1/20))).curr_frame = (k : ℤ) % 15 := by
  induction k with
  | zero => simp [clockRun, clockInit]
  | succ k ih =>
    obtain ⟨ht, hp, hf⟩ := ih
    have hcond : (clockRun (List.replicate k (1/20))).time + 1/20 -
        (clockRun (List.replicate k (1/20))).prev_time ≥ (1/20 : ℚ) := by
      rw [ht, hp]
      have h : (k : ℚ)/20 + 1/20 - (k : ℚ)/20 = 1/20 := by ring
      rw [h]
    rw [List.replicate_succ', clockRun_append]
    simp only [clockStep, if_pos hcond]
    refine ⟨by rw [ht]; push_cast; ring, by rw [ht]; push_cast; ring, ?_⟩
    rw [hf]
    push_cast
    split <;> omega

/-- Claim C1 (counterexample): polling every 0.016 s satisfies the claim's
assumption (0.016 ≤ 0.05), yet after 50 iterations (elapsed time 0.8 s) the
code's frame index is 12, while the claimed formula
`⌊t / 0.05⌋ % 15 = ⌊0.8 / 0.05⌋ % 15` predicts 1: the clock resets
`prev_time` to the polling instant, so the effective cadence is 0.064 s
here, not 0.05 s. -/
theorem frame_formula_counterexample :
    (clockRun (List.replicate 50 (2/125))).time = 4/5 ∧
    (clockRun (List.replicate 50 (2/125))).curr_frame = 12 ∧
    ⌊(4/5 : ℚ) / (1/20)⌋ % 15 = 1 ∧ (12 : ℤ) ≠ 1 := by
  set_option maxRecDepth 8000 in
  norm_num [clockRun, clockStep, clockInit, List.replicate, List.foldl]

/-- Claim C1 (amended): the formula `curr_frame = ⌊t / 0.05⌋ % 15` holds
when the loop polls exactly at multiples of the 0.05 s tick period (since
the code resets `prev_time` to the polling instant, not to a tick
boundary); under the claim's 0.016 s-step scenario up to t = 0.8 s the
clock advances every fourth poll and the resulting index is 12. -/
theorem frame_index_formula_amended :
    (∀ k : ℕ, (clockRun (List.replicate k (1/20))).curr_frame =
      ⌊(clockRun (List.replicate k (1/20))).time / (1/20 : ℚ)⌋ % 15) ∧
    (clockRun (List.replicate 50 (2/125))).curr_frame = 12 := by
  constructor
  · intro k
    obtain ⟨ht, _, hf⟩ := clockRun_tick k
    rw [hf, ht]
    have hq : ((k : ℚ)/20) / (1/20 : ℚ) = (k : ℚ) := by
      field_simp
    rw [hq, Int.floor_natCast]
  · set_option maxRecDepth 8000 in
    norm_num [clockRun, clockStep, clockInit, List.replicate, List.foldl]

/-- Claim C3: on every loop iteration the clock advances the frame index by
exactly one (modulo the wrap at 15) when `time - prev_time ≥ 0.05` and
leaves it unchanged otherwise — never more than one per iteration — and the
index stays in `[0, 15)`. -/
theorem clock_advance_exactly_one (s : ClockState) (dt : ℚ)
    (h0 : 0 ≤ s.curr_frame) (h15 : s.curr_frame < 15) :
    (clockStep s dt).curr_frame =
      (if s.time + dt - s.prev_time ≥ 1/20 then (s.curr_frame + 1) % 15
       else s.curr_frame) ∧
    0 ≤ (clockStep s dt).curr_frame ∧ (clockStep s dt).curr_frame < 15 := by
  refine ⟨?_, clockStep_frame_bounds s dt h0 h15⟩
  by_cases hc : s.time + dt - s.prev_time ≥ (1/20 : ℚ)
  · simp only [clockStep, if_pos hc]
    split <;> omega
  · simp only [clockStep, if_neg hc]

/-- Witness for `clock_advance_exactly_one` at a concrete state: frame 14,
an iteration whose delta time crosses the tick, wrapping the index to 0. -/
theorem clock_advance_exactly_one_witness :
    (clockStep ⟨0, 0, 14, false⟩ (1/10)).curr_frame =
      (if (0 : ℚ) + 1/10 - 0 ≥ 1/20 then ((14 : ℤ) + 1) % 15 else 14) ∧
    0 ≤ (clockStep ⟨0, 0, 14, false⟩ (1/10)).curr_frame ∧
    (clockStep ⟨0, 0, 14, false⟩ (1/10)).curr_frame < 15 :=
  clock_advance_exactly_one ⟨0, 0, 14, false⟩ (1/10) (by norm_num) (by norm_num)

/-- Claim C7: on every iteration `curr_frame_changed` is true if and only
if the frame index after the update differs from its value on the previous
iteration. -/
theorem frame_changed_iff_index_changed (s : ClockState) (dt : ℚ) :
    (clockStep s dt).curr_frame_changed = true ↔
      (clockStep s dt).curr_frame ≠ s.curr_frame := by
  by_cases hc : s.time + dt - s.prev_time ≥ (1/20 : ℚ)
  · simp only [clockStep, if_pos hc]
    simp only [true_iff]
    split <;> omega
  · simp only [clockStep, if_neg hc]
    simp

/-- Claim C9: every access `test_image_data[curr_frame]` is in bounds: the
startup access uses index 0, and after any run of loop iterations the index
lies in `[0, 15)`, within the 15-entry frame table. -/
theorem frame_table_access_in_bounds (dts : List ℚ) :
    (0 ≤ (clockRun dts).curr_frame ∧
      (clockRun dts).curr_frame < test_image_frame_count) ∧
    0 ≤ (0 : ℤ) ∧ (0 : ℤ) < test_image_frame_count := by
  obtain ⟨h0, h15⟩ := clockRun_frame_bounds dts
  refine ⟨⟨h0, ?_⟩, le_refl 0, by norm_num [test_image_frame_count]⟩
  rw [test_image_frame_count]
  exact h15

lemma flatMap_range_length {α : Type} (f : ℕ → List α) (k n : ℕ)
    (hk : ∀ m, (f m).length = k) :
    ((List.range n).flatMap f).length = n * k := by
  induction n with
  | zero => simp
  | succ n ih =>
    rw [List.range_succ, List.flatMap_append, List.length_append, ih]
    simp [hk]
    ring

lemma flatMap_range_getElem {α : Type} (f : ℕ → List α) (k n a b : ℕ)
    (hk : ∀ m, (f m).length = k) (ha : a < n) (hb : b < k) :
    ((List.range n).flatMap f)[a * k + b]? = (f a)[b]? := by
  induction n with
  | zero => omega
  | succ n ih =>
    rw [List.range_succ, List.flatMap_append]
    rcases Nat.lt_or_ge a n with h | h
    · rw [List.getElem?_append, if_pos]
      · exact ih h
      · rw [flatMap_range_length f k n hk]
        have : (a + 1) * k ≤ n * k := Nat.mul_le_mul_right k h
        calc a * k + b < a * k + k := by omega
          _ = (a + 1) * k := by ring
          _ ≤ n * k := this
    · have ha' : a = n := by omega
      rw [ha']
      rw [List.getElem?_append_right]
      · rw [flatMap_range_length f k n hk]
        have hsub : n * k + b - n * k = b := by omega
        simp [hsub]
      · rw [flatMap_range_length f k n hk]
        omega

lemma color_buffer_inner_length (m : ℕ) :
    ((List.range 1024).flatMap fun y => checker_texel_bytes m y).length = 4096 := by
  have h := flatMap_range_length (fun y => checker_texel_bytes m y) 4 1024
    (fun _ => rfl)
  simpa using h

lemma color_buffer_length : color_buffer.length = 1024 * 1024 * 4 := by
  have h := flatMap_range_length
    (fun x => (List.range 1024).flatMap fun y => checker_texel_bytes x y)
    4096 1024 color_buffer_inner_length
  rw [color_buffer]
  simpa using h

/-- Claim C5: the generated base image is 1024×1024 RGBA8 (4 bytes per
texel, 1024·1024·4 bytes total), and for every `(x, y)` the texel that
`glTexImage2D` reads for texture coordinate `(x, y)` — bytes
`(y*1024 + x)*4 … +3` in row-major order — is opaque white
`(255,255,255,255)` when `(x + y) % 2 = 1` and opaque black `(0,0,0,255)`
otherwise. -/
theorem checkerboard_pixels (x y : ℕ) (hx : x < 1024) (hy : y < 1024) :
    color_buffer.length = 1024 * 1024 * 4 ∧
    (color_buffer[(y * 1024 + x) * 4]?,
      color_buffer[(y * 1024 + x) * 4 + 1]?,
      color_buffer[(y * 1024 + x) * 4 + 2]?,
      color_buffer[(y * 1024 + x) * 4 + 3]?) =
      (if (x + y) % 2 = 1
       then (some 255, some 255, some 255, some 255)
       else (some 0, some 0, some 0, some 255)) := by
  refine ⟨color_buffer_length, ?_⟩
  have key : ∀ c, c < 4 →
      color_buffer[(y * 1024 + x) * 4 + c]? = (checker_texel_bytes y x)[c]? := by
    intro c hc
    have harith : (y * 1024 + x) * 4 + c = y * 4096 + (x * 4 + c) := by ring
    rw [harith, color_buffer,
      flatMap_range_getElem _ 4096 1024 y (x * 4 + c) color_buffer_inner_length hy
        (by omega),
      flatMap_range_getElem (fun u => checker_texel_bytes y u) 4 1024 x c
        (fun _ => rfl) hx hc]
  have k0 := key 0 (by norm_num)
  rw [Nat.add_zero] at k0
  rw [k0, key 1 (by norm_num), key 2 (by norm_num), key 3 (by norm_num)]
  have hyx : (y + x) % 2 = (x + y) % 2 := by rw [Nat.add_comm]
  rcases Nat.mod_two_eq_zero_or_one (x + y) with h | h
  · rw [if_neg (by omega)]
    simp [checker_texel_bytes, checker_res, hyx, h]
  · rw [if_pos h]
    simp [checker_texel_bytes, checker_res, hyx, h]

/-- Witness for `checkerboard_pixels` at (x, y) = (3, 4): `3 + 4` is odd,
so the texel is opaque white. -/
theorem checkerboard_pixels_witness :
    color_buffer.length = 1024 * 1024 * 4 ∧
    (color_buffer[(4 * 1024 + 3) * 4]?,
      color_buffer[(4 * 1024 + 3) * 4 + 1]?,
      color_buffer[(4 * 1024 + 3) * 4 + 2]?,
      color_buffer[(4 * 1024 + 3) * 4 + 3]?) =
      (if (3 + 4) % 2 = 1
       then (some 255, some 255, some 255, some 255)
       else (some 0, some 0, some 0, some 255)) :=
  checkerboard_pixels 3 4 (by norm_num) (by norm_num)

/-- Claim C2 (code evaluated at the failing input): the three overwrite
vectors have the claimed level dimensions and are constant, level 1 decodes
to solid opaque red as claimed, but on the little-endian hosts this program
targets every texel of level 2 decodes to solid opaque blue — not green —
and every texel of level 3 decodes to solid opaque green — not blue: the
constants `0xffff0000` and `0xff00ff00` are swapped relative to the
variable names `green_mipmap` and `blue_mipmap`. -/
theorem mipmap_levels_green_blue_swapped :
    red_mipmap.length = 512 * 512 ∧
    green_mipmap.length = 256 * 256 ∧
    blue_mipmap.length = 128 * 128 ∧
    (red_mipmap[0]?).map rgba_of_word = some solid_red ∧
    (green_mipmap[0]?).map rgba_of_word = some solid_blue ∧
    (blue_mipmap[0]?).map rgba_of_word = some solid_green ∧
    solid_blue ≠ solid_green := by
  refine ⟨?_, ?_, ?_, ?_, ?_, ?_, by decide⟩
  · rw [red_mipmap, List.length_replicate]
  · rw [green_mipmap, List.length_replicate]
  · rw [blue_mipmap, List.length_replicate]
  · rw [red_mipmap, List.getElem?_replicate, if_pos (by norm_num)]
    decide
  · rw [green_mipmap, List.getElem?_replicate, if_pos (by norm_num)]
    decide
  · rw [blue_mipmap, List.getElem?_replicate, if_pos (by norm_num)]
    decide

/-- Claim C4: both fragment-shader sampler uniform locations are fetched as
the uniform `"tex"`, so they are equal; the two per-frame `glUniform1i`
writes (units 0 then 1) both target that single location, leaving it at 1;
and whenever `"img"` resolves to a different location, that location is
never written and keeps its initial value. -/
theorem samplers_both_bound_to_checkerboard (loc : String → ℤ) (st : ℤ → ℤ)
    (h : loc "img" ≠ loc "tex") :
    tex_img_location loc = tex_location loc ∧
    (frame_sampler_writes loc).map Prod.fst = [loc "tex", loc "tex"] ∧
    apply_uniform_writes st (frame_sampler_writes loc) (loc "img") =
      st (loc "img") ∧
    apply_uniform_writes st (frame_sampler_writes loc) (loc "tex") = 1 := by
  refine ⟨rfl, rfl, ?_, ?_⟩
  · simp [apply_uniform_writes, frame_sampler_writes, tex_location,
      tex_img_location, h]
  · simp [apply_uniform_writes, frame_sampler_writes, tex_location,
      tex_img_location]

/-- Witness for `samplers_both_bound_to_checkerboard` with a concrete
location assignment (`"tex" ↦ 5`, everything else ↦ 7) and the all-zero
initial uniform store. -/
theorem samplers_both_bound_to_checkerboard_witness :
    tex_img_location sampleLoc = tex_location sampleLoc ∧
    (frame_sampler_writes sampleLoc).map Prod.fst =
      [sampleLoc "tex", sampleLoc "tex"] ∧
    apply_uniform_writes sampleStore (frame_sampler_writes sampleLoc)
      (sampleLoc "img") = sampleStore (sampleLoc "img") ∧
    apply_uniform_writes sampleStore (frame_sampler_writes sampleLoc)
      (sampleLoc "tex") = 1 :=
  samplers_both_bound_to_checkerboard sampleLoc sampleStore
    (by simp [sampleLoc])

/-- Claim C6: for every window width and height the row-major projection
matrix has (0,0) entry (index 0) equal to `near / right` and (2,2) entry
(index 10) equal to `-(far + near)/(far - near)`; instantiated at 800×600
and 1920×1080 these are 3/4 resp. 9/16 and −1001/999. -/
theorem projection_matrix_entries (width height : ℚ) :
    (projection width height)[0]? = some (near / right width height) ∧
    (projection width height)[10]? = some (-(far + near) / (far - near)) ∧
    (projection 800 600)[0]? = some ((3 : ℚ)/4) ∧
    (projection 1920 1080)[0]? = some ((9 : ℚ)/16) ∧
    (projection 800 600)[10]? = some (-((1001 : ℚ)/999)) ∧
    (projection 1920 1080)[10]? = some (-((1001 : ℚ)/999)) := by
  refine ⟨rfl, rfl, ?_, ?_, ?_, ?_⟩ <;>
    norm_num [projection, right, near, top, far]

/-- Claim C8: processing a window-resize event with `data1 = 1024`,
`data2 = 768` stores exactly width 1024 and height 768, and the next
frame's `right` computation (main.cpp:303) then evaluates
`0.1 * 1024 / 768`. -/
theorem resize_updates_dimensions (s : AppState) :
    (processEvent s (.windowResized 1024 768)).width = 1024 ∧
    (processEvent s (.windowResized 1024 768)).height = 768 ∧
    right ((processEvent s (.windowResized 1024 768)).width : ℚ)
        ((processEvent s (.windowResized 1024 768)).height : ℚ) =
      (1/10) * 1024 / 768 := by
  refine ⟨rfl, rfl, ?_⟩
  norm_num [processEvent, right, top, near]

/-- Claim C10: the process boundary returns exit code 0 with no stderr
output exactly on a normal window-close run; any thrown setup error yields
a nonzero exit code (`EXIT_FAILURE` = 1) with the error's message on
stderr; and an environment in which every setup step succeeds reaches the
normal-close outcome. -/
theorem exit_code_contract (env : Env) (msg : String) :
    (main_body env = .ok () → process_result (main_body env) = (0, none)) ∧
    (main_body env = .error msg →
      (process_result (main_body env)).1 ≠ 0 ∧
      (process_result (main_body env)).2 = some msg) ∧
    (env.sdl_init_ok ∧ env.create_window_ok ∧ env.create_context_ok ∧
        env.glew_ok ∧ env.gl33_supported ∧ env.vertex_log = none ∧
        env.fragment_log = none ∧ env.link_log = none →
      main_body env = .ok ()) := by
  refine ⟨?_, ?_, ?_⟩
  · intro h
    rw [h]
    rfl
  · intro h
    rw [h]
    exact ⟨by norm_num [process_result], rfl⟩
  · rintro ⟨h1, h2, h3, h4, h5, h6, h7, h8⟩
    simp [main_body, h1, h2, h3, h4, h5, h6, h7, h8, create_shader,
      create_program]
    rfl

/-- Witness for `exit_code_contract`: the all-successful environment exits
0 with silent stderr, and an environment whose `SDL_Init` fails with driver
text `"boom"` exits 1 with the message on stderr. -/
theorem exit_code_contract_witness :
    process_result (main_body envOk) = (0, none) ∧
    (process_result (main_body envBad)).1 ≠ 0 ∧
    (process_result (main_body envBad)).2 = some ("SDL_Init: " ++ "boom") :=
  have hok : main_body envOk = .ok () :=
    (exit_code_contract envOk "").2.2 ⟨rfl, rfl, rfl, rfl, rfl, rfl, rfl, rfl⟩
  have hbad : main_body envBad = .error ("SDL_Init: " ++ "boom") := rfl
  ⟨(exit_code_contract envOk "").1 hok,
    ((exit_code_contract envBad ("SDL_Init: " ++ "boom")).2.1 hbad).1,
    ((exit_code_contract envBad ("SDL_Init: " ++ "boom")).2.1 hbad).2⟩

end Practice5
